import Mathlib

/-!
Shallow embedding of the assistant-widget conversation logic of the
My_PortFolio repository (src/script.js, src/api-config.js,
src/unnamed/part_000).  src/script.js contains three concatenated
snapshots of the same evolving script; the embedding keeps them apart:

* `DocA` — first snapshot of src/script.js (lines 1-977): `loadAPIKey`,
  `callGroqAPI` (history bound 10, request window 6), the submit handler
  and the suggestion handler of `initChatbot`.
* `DocB` — second snapshot (lines 979-1785): `callGroqAPI` (history bound
  12, contact postscript from message count 5), `handleHumanSwitch`,
  `handleAISwitch`, suggestion dispatch and submit handler.
* `DocC` — third snapshot (lines 1787-2384): the "secure configuration"
  `loadAPIKey`.
* `Part000` — src/unnamed/part_000: `callGroqAPI` and the submit flow of
  its `initChatbot` (input re-enabled only after the reply is rendered).
* `ApiConfig` — src/api-config.js: base64-fragment key reconstruction.

Asynchronous effects are made explicit: the network transport outcome is
a `TransportResult` argument, issued requests are returned as a list (so
"no network call" is `requests = []`), and the `setTimeout`-driven
rendering of the chat widget is a small step machine whose `fire` action
runs a pending timer callback.
-/

namespace Portfolio

/-- One entry of the `messages` array / of `conversationHistory`:
a `\x7b role, content \x7d` object. -/
structure Turn where
  role : String
  content : String
deriving DecidableEq

/-- The `messages` array sent to the completion endpoint (the other body
fields — model, max_tokens, temperature — are fixed constants that no
property here depends on). -/
abbrev Request := List Turn

/-- The module-level mutable chat state of one script snapshot:
`conversationHistory` and `messageCount`. -/
structure ChatState where
  history : List Turn
  messageCount : Nat
deriving DecidableEq

/-- Outcome of one `fetch` of the completion endpoint:
a 2xx response with a well-formed body, a non-success HTTP status
(`response.ok` false), or a thrown network error. -/
inductive TransportResult where
  | httpOk (content : String)
  | httpErr (status : Nat)
  | netThrow
deriving DecidableEq

/-- A transport outcome that does not deliver a completion. -/
def TransportResult.isFailure : TransportResult → Bool
  | .httpOk _ => false
  | .httpErr _ => true
  | .netThrow => true

/-- JavaScript truthiness of a `string | null` value
(`null` and `""` are falsy). -/
def truthy : Option String → Bool
  | none => false
  | some s => s != ""

/-- `Array.prototype.slice(-n)`: the at most `n` last elements. -/
def sliceLast (n : Nat) (l : List α) : List α := l.drop (l.length - n)

/-- A message rendered into the chat widget (`addMessage`):
sender `user` or `bot` plus the displayed text. -/
inductive Msg where
  | user (text : String)
  | bot (text : String)
deriving DecidableEq

/-- JavaScript whitespace (as far as the strings here are concerned). -/
def isWs (c : Char) : Bool :=
  c = ' ' ∨ c = '\t' ∨ c = '\n' ∨ c = '\x0d' ∨ c = '\x0c' ∨ c = '\x0b'

/-- `String.prototype.trim()`. -/
def jsTrim (s : String) : String :=
  String.mk (((s.data.dropWhile isWs).reverse.dropWhile isWs).reverse)

/-- `String.prototype.startsWith(pat)`. -/
def jsStartsWith (s pat : String) : Bool :=
  pat.data.isPrefixOf s.data

/-- `String.prototype.split(sep)` for a one-character separator. -/
def splitCharAux (sep : Char) : List Char → List Char → List String
  | [], acc => [String.mk acc.reverse]
  | c :: rest, acc =>
      if c = sep then String.mk acc.reverse :: splitCharAux sep rest []
      else splitCharAux sep rest (c :: acc)

/-- `String.prototype.split(sep)` for a one-character separator. -/
def splitChar (sep : Char) (s : String) : List String :=
  splitCharAux sep s.data []

/-- Remainder after the first occurrence of `pat` in `l`
(`none` when `pat` does not occur). -/
def findSub (pat : List Char) : List Char → Option (List Char)
  | [] => none
  | c :: rest =>
      if pat.isPrefixOf (c :: rest) then some ((c :: rest).drop pat.length)
      else findSub pat rest

/-- Result of one `callGroqAPI(userMessage)` call: the chat state after
the call, the returned reply text, and the requests issued to the
transport during the call. -/
structure CallResult where
  state : ChatState
  response : String
  requests : List Request
deriving DecidableEq

namespace B64

/-- Value of one base64 alphabet character, `none` outside the alphabet. -/
def b64Val (c : Char) : Option Nat :=
  if 'A' ≤ c ∧ c ≤ 'Z' then some (c.toNat - 'A'.toNat)
  else if 'a' ≤ c ∧ c ≤ 'z' then some (c.toNat - 'a'.toNat + 26)
  else if '0' ≤ c ∧ c ≤ '9' then some (c.toNat - '0'.toNat + 52)
  else if c = '+' then some 62
  else if c = '/' then some 63
  else none

/-- Strip up to two trailing `=` padding characters. -/
def stripPadding (cs : List Char) : List Char :=
  match cs.reverse with
  | '=' :: '=' :: rest => rest.reverse
  | '=' :: rest => rest.reverse
  | _ => cs

/-- Reassemble 6-bit groups into bytes (leftover bits are discarded, as
in the forgiving-base64 decode used by `atob`). -/
def decodeVals : List Nat → List Nat
  | a :: b :: c :: d :: rest =>
      (a * 4 + b / 16) :: ((b % 16) * 16 + c / 4) :: ((c % 4) * 64 + d) :: decodeVals rest
  | [a, b] => [a * 4 + b / 16]
  | [a, b, c] => [a * 4 + b / 16, (b % 16) * 16 + c / 4]
  | _ => []

/-- The browser `atob`: forgiving-base64 decode to a byte string;
`none` models the `InvalidCharacterError` thrown on invalid input. -/
def atob (s : String) : Option String :=
  let cs := s.data.filter fun c =>
    ¬ (c = ' ' ∨ c = '\t' ∨ c = '\n' ∨ c = '\x0d' ∨ c = '\x0c')
  let cs := if cs.length % 4 = 0 then stripPadding cs else cs
  if cs.length % 4 = 1 then none
  else
    match cs.mapM b64Val with
    | none => none
    | some vals => some (String.mk ((decodeVals vals).map Char.ofNat))

end B64

namespace ApiConfig

/-- The twelve encoded fragments `_p1` … `_p12` of src/api-config.js,
in field order. -/
def parts : List String :=
  ["Z3NrXw==", "VVZsalc=", "WWVvWjE=", "TkFFVlQ=", "RzBZR3I=",
   "V0dkeWIz", "RllJc28=", "WGQwWEM=", "TGRLTDY=", "dTlhbW0=",
   "dFFXdWw=", "OQ=="]

/-- `[ ... ].map(p => atob(p))` with the try/catch of `getKey`: the first
fragment that fails to decode aborts the whole reconstruction. -/
def decodeAll : List String → Option (List String)
  | [] => some []
  | p :: rest =>
      match B64.atob p with
      | none => none
      | some d => (decodeAll rest).map fun ds => d :: ds

/-- `ApiConfig.getKey()`: decode each fragment independently and join in
order; the catch handler turns any decode error into `null`. -/
def getKey (ps : List String) : Option String :=
  (decodeAll ps).map String.join

/-- `ApiConfig.init()`: the localStorage override wins when truthy,
otherwise the reconstructed embedded key is used. -/
def init (stored : Option String) (ps : List String) : Option String :=
  if truthy stored then stored else getKey ps

end ApiConfig

namespace DocA

/-- Fallback returned by `callGroqAPI` when `GROQ_API_KEY` is falsy. -/
def noCredentialFallback : String :=
  "I appreciate your interest! For real-time AI responses, please contact Awais directly at muhammadawaislaal@gmail.com or visit his Fiverr profile. Your message is important! 💙"

/-- Fallback returned by the catch handler of `callGroqAPI` (reached both
when `fetch` throws and when a non-ok status makes the function throw). -/
def transportFallback : String :=
  "I\x27m having trouble connecting right now. 😅 Please try emailing Awais directly at muhammadawaislaal@gmail.com or check out his projects on GitHub!"

/-- The `systemPrompt` template literal of the first snapshot. -/
def systemPrompt : String :=
  "You are Awais Assistant, the AI assistant for Muhammad Awais Laal, a skilled Gen AI Developer.\n    \nAbout Awais:\n- Name: Muhammad Awais Laal\n- Title: Gen AI Developer & Super Python Trainer at Preply\n- Location: Punjab, Pakistan\n- Experience: 1+ years in AI/ML\n- Expertise: Python, Flask, TensorFlow, PyTorch, LangChain, OpenAI API, Hugging Face\n- Projects: YouTube Video Summarizer, AI SQL Agent, Business Analyst Chatbot, Trading Signal Predictor\n- Contact: muhammadawaislaal@gmail.com | Phone: +92 3346902424\n- Portfolio: https://muhammadawaislaal.github.io\n\nYour personality:\n- Be friendly, helpful, and professional\n- Keep responses concise (2-4 sentences)\n- Show enthusiasm for AI/ML topics\n- Guide users to contact Awais for serious inquiries\n- Use occasional emojis to keep it friendly 😊\n- If you don\x27t know something, be honest and suggest contacting Awais\n\nImportant: Always be helpful and encourage users to reach out to Awais for project collaborations or AI development needs."

/-- `callGroqAPI(userMessage)` of the first snapshot.  The key check is the
JavaScript truthiness test `if (!GROQ_API_KEY)`.  On the happy path the
user turn is pushed, `messageCount` incremented, the request built from
`[system, ...conversationHistory.slice(-6)]`, the assistant turn pushed,
and the history trimmed with `slice(-10)` when longer than 10.  A non-ok
status throws; the catch handler returns `transportFallback` with the
pushed user turn and the incremented counter left in place. -/
def callGroqAPI (key : Option String) (tr : TransportResult) (st : ChatState)
    (userMessage : String) : CallResult :=
  if truthy key = false then
    ⟨st, noCredentialFallback, []⟩
  else
    let h1 := st.history ++ [⟨"user", userMessage⟩]
    let count := st.messageCount + 1
    let req : Request := ⟨"system", systemPrompt⟩ :: sliceLast 6 h1
    match tr with
    | .httpOk content =>
        let h2 := h1 ++ [⟨"assistant", content⟩]
        let h3 := if 10 < h2.length then sliceLast 10 h2 else h2
        ⟨⟨h3, count⟩, content, [req]⟩
    | .httpErr _ => ⟨⟨h1, count⟩, transportFallback, [req]⟩
    | .netThrow => ⟨⟨h1, count⟩, transportFallback, [req]⟩

/-- Scan of the env.txt body in the first snapshot's `loadAPIKey`: first
line starting with `GROQ_API_KEY=`, value `line.split(\x27=\x27)[1].trim()`. -/
def envParse (text : String) : Option String :=
  ((splitChar '\n' text).find? fun l => jsStartsWith l "GROQ_API_KEY=").map
    fun l => jsTrim ((splitChar '=' l).getD 1 "")

/-- `loadAPIKey()` of the first snapshot: try the env.txt resource first
(any fetch error falls through), then the localStorage override, else
`null`.  `envTxt = none` models a failed or non-ok fetch. -/
def loadAPIKey (envTxt : Option String) (stored : Option String) : Option String :=
  match envTxt with
  | some text =>
      match envParse text with
      | some v => some v
      | none => if truthy stored then stored else none
  | none => if truthy stored then stored else none

/-- Canned reply of the submit handler when `isHumanMode` is set. -/
def humanModeReply : String :=
  "Thanks for reaching out! I\x27m usually busy with projects, but I check emails regularly. For detailed discussions, please email me at muhammadawaislaal@gmail.com or message me on Fiverr. Looking forward to hearing from you! 🚀"

/-- The contact-suggestion HTML appended after a response once
`messageCount >= 3` outside human mode. -/
def contactHtml : String :=
  "💡 <strong>Ready to collaborate?</strong> Contact Awais at <a href=\x27mailto:muhammadawaislaal@gmail.com\x27 style=\x27color: var(--neon-cyan); text-decoration: underline;\x27>email</a> or <a href=\x27https://www.fiverr.com/pooorman?public_mode=true\x27 target=\x27_blank\x27 style=\x27color: var(--neon-cyan); text-decoration: underline;\x27>Fiverr</a>!"

/-- Scripted reply of the suggestion handler for `Switch to Human`. -/
def humanSwitchReply : String :=
  "Hey! It\x27s Awais here 👋 I try to check in when I can. For project discussions or quick responses, email me at muhammadawaislaal@gmail.com or message on Fiverr!"

/-- Scripted reply of the suggestion handler for `Back to Assistant Bot`. -/
def aiSwitchReply : String :=
  "Hi! I\x27m back - Awais\x27s AI assistant! How can I help you learn about his work? 🤖"

/-- Suggestion buttons restored in assistant mode. -/
def assistantSuggestions : List String :=
  ["Tell me about Awais", "What\x27s his expertise?", "Switch to Human"]

/-- Suggestion buttons restored in human mode. -/
def humanSuggestions : List String :=
  ["Got a project idea?", "Want to collaborate?", "Back to Assistant Bot"]

/-- Widget state seen by the first snapshot's suggestion handler. -/
structure SugState where
  isHumanMode : Bool
  botName : String
  chat : ChatState
  rendered : List Msg
  suggestions : List String
  apiCalls : Nat
deriving DecidableEq

/-- One suggestion-button click of the first snapshot's `initSuggestions`:
render the label as a user message, clear the buttons, branch on the
reserved labels (mode flip, name swap, scripted reply — `callGroqAPI` is
not invoked and neither `conversationHistory` nor `messageCount` is
touched) or else ask `callGroqAPI`; finally render the reply and restore
the mode's suggestion set.  `apiCalls` counts issued requests. -/
def selectSuggestion (key : Option String) (tr : TransportResult) (st : SugState)
    (label : String) : SugState :=
  let st1 := { st with rendered := st.rendered ++ [Msg.user label], suggestions := [] }
  match
    (if label = "Switch to Human" then
      ({ st1 with isHumanMode := true, botName := "Muhammad Awais Laal" }, humanSwitchReply, 0)
    else if label = "Back to Assistant Bot" then
      ({ st1 with isHumanMode := false, botName := "Awais Assistant" }, aiSwitchReply, 0)
    else
      let res := callGroqAPI key tr st1.chat label
      ({ st1 with chat := res.state }, res.response, res.requests.length) : SugState × String × Nat)
  with
  | (st2, reply, n) =>
      { st2 with
        rendered := st2.rendered ++ [Msg.bot reply]
        suggestions := if st2.isHumanMode then humanSuggestions else assistantSuggestions
        apiCalls := st.apiCalls + n }

/-- State of the first snapshot's submit/render flow: module chat state,
rendered messages, the disabled flag of the input control, and the bot
replies whose rendering `setTimeout` callbacks are still pending. -/
structure MState where
  key : Option String
  chat : ChatState
  isHumanMode : Bool
  rendered : List Msg
  inputDisabled : Bool
  pendingBots : List String
deriving DecidableEq

/-- Events of the submit/render flow: a form submit (with the transport
outcome its completion call will see) or the firing of the earliest
pending render timer. -/
inductive MAct where
  | submit (text : String) (tr : TransportResult)
  | fire
deriving DecidableEq

/-- One step of the first snapshot's `initChatbot` submit flow.  A submit
is only possible while the input is enabled; the handler renders the user
turn, disables the input, awaits `callGroqAPI` (or uses the human-mode
canned reply), schedules the bot render on an 800ms timer, and its
`finally` block re-enables the input — before the timer fires.  `fire`
runs the earliest pending timer: it renders the bot reply, increments
`messageCount` again, and appends the contact suggestion when the counter
has reached 3 outside human mode. -/
def mstep (st : MState) : MAct → Option MState
  | .submit text tr =>
      if st.inputDisabled then none
      else
        let res :=
          if st.isHumanMode then (⟨st.chat, humanModeReply, []⟩ : CallResult)
          else callGroqAPI st.key tr st.chat text
        some { st with
          chat := res.state
          rendered := st.rendered ++ [Msg.user text]
          pendingBots := st.pendingBots ++ [res.response]
          inputDisabled := false }
  | .fire =>
      match st.pendingBots with
      | [] => none
      | r :: rest =>
          let count := st.chat.messageCount + 1
          some { st with
            chat := ⟨st.chat.history, count⟩
            rendered := st.rendered ++ [Msg.bot r] ++
              (if 3 ≤ count ∧ st.isHumanMode = false then [Msg.bot contactHtml] else [])
            pendingBots := rest }

/-- Run a list of events from a state, failing when one is not enabled. -/
def runA : MState → List MAct → Option MState
  | st, [] => some st
  | st, a :: acts =>
      match mstep st a with
      | none => none
      | some st' => runA st' acts

/-- Fresh widget state with a resolved key. -/
def initState (key : Option String) : MState := ⟨key, ⟨[], 0⟩, false, [], false, []⟩

/-- `n` consecutive `callGroqAPI` calls that all hit a network error. -/
def failRun : Nat → ChatState
  | 0 => ⟨[], 0⟩
  | n + 1 => (callGroqAPI (some "k") .netThrow (failRun n) "hello").state

end DocA

namespace DocB

/-- The second snapshot's `systemPrompt` template literal. -/
def systemPrompt : String :=
  "You are a warm, professional AI assistant for Muhammad Awais Laal, a talented Gen AI Developer from Pakistan. Your communication style:\n\n**Tone & Personality:**\n- Friendly and welcoming, like chatting with a knowledgeable friend\n- Slightly humorous to keep things light and engaging\n- Subtly persuasive about collaboration opportunities\n- Empathetic and understanding of client needs\n- Professional yet approachable\n\n**Response Guidelines:**\n- Keep responses MEDIUM LENGTH (2-5 sentences typically, adjust based on question complexity)\n- Be conversational and natural\n- Gradually build rapport and trust\n- Use strategic softness to convince about collaboration (\"would love to explore...\", \"excited about...\", \"perfect fit for...\")\n- Avoid being pushy - let interest develop naturally\n- Show genuine interest in their needs\n\n**About Muhammad Awais Laal:**\n- Python & Generative AI Developer with 5+ successful AI projects\n- Super Python Trainer at Preply (2026)\n- Expert in: Python, Flask, LangChain, NLP, Transformers, TensorFlow, PyTorch, SQL, WordPress\n- Created: YouTube Summarizers, AI SQL Agents, Trading Predictors, BI Chatbots, Course Management System\n- Education: Bachelor in IT, Advanced GenAI from Tecrix (9 months), Akhuwat GenAI Bootcamp (4 months)\n- Location: D.G. Khan, Punjab, Pakistan\n- Contact: muhammadawaislaal@gmail.com | +92 334-6902424\n- Fiverr: https://www.fiverr.com/pooorman?public_mode=true\n- LinkedIn: https://linkedin.com/in/muhammad-awais-laal-2a3450324/\n- GitHub: https://github.com/muhammadawaislaal\n- Achievements: Improved client workflows by 40%, 5+ successful projects, recognized AI expert\n\n**Collaboration Psychology:**\n- Ask thoughtful questions to understand their needs\n- Show how Awais\x27s skills match their requirements\n- Build confidence in his abilities through examples\n- Make them feel understood and valued\n- Slowly guide conversation toward \"let\x27s work together\" without being obvious"

/-- The contact postscript appended to `assistantMessage` once
`messageCount >= 5`. -/
def postscript : String :=
  "\n\nðŸ’¡ _Feel free to connect directly with Awais on **[LinkedIn](https://linkedin.com/in/muhammad-awais-laal-2a3450324/)**, **[Fiverr](https://www.fiverr.com/pooorman?public_mode=true)**, or email **muhammadawaislaal@gmail.com** for quick responses!_"

/-- Reply returned when `response.ok` is false. -/
def httpErrFallback : String :=
  "Oops! Connection issue. Reach out to Awais directly at muhammadawaislaal@gmail.com or Fiverr ðŸ˜Š"

/-- Reply returned by the catch handler. -/
def catchFallback : String :=
  "Having trouble connecting ðŸ˜… Try emailing Awais at muhammadawaislaal@gmail.com!"

/-- `callGroqAPI(userMessage)` of the second snapshot.  The key is a
hard-coded constant, so there is no credential check.  The request sends
`[system, ...conversationHistory]` — the full, untrimmed history; the
postscript is appended when the incremented `messageCount` reaches 5, the
assistant turn (with postscript) is pushed, and only then is the history
trimmed with `slice(-12)` when longer than 12. -/
def callGroqAPI (tr : TransportResult) (st : ChatState) (userMessage : String) : CallResult :=
  let h1 := st.history ++ [⟨"user", userMessage⟩]
  let count := st.messageCount + 1
  let req : Request := ⟨"system", systemPrompt⟩ :: h1
  match tr with
  | .httpOk content =>
      let content2 := if 5 ≤ count then content ++ postscript else content
      let h2 := h1 ++ [⟨"assistant", content2⟩]
      let h3 := if 12 < h2.length then sliceLast 12 h2 else h2
      ⟨⟨h3, count⟩, content2, [req]⟩
  | .httpErr _ => ⟨⟨h1, count⟩, httpErrFallback, [req]⟩
  | .netThrow => ⟨⟨h1, count⟩, catchFallback, [req]⟩

/-- Greeting emitted by `handleHumanSwitch`. -/
def humanGreeting : String :=
  "Hey! It\x27s actually me - Awais ðŸš€ I try to jump in when I can, but heads up... I\x27m pretty swamped with projects! What\x27s up?"

/-- Greeting emitted by `handleAISwitch`. -/
def aiGreeting : String :=
  "Hey there! ðŸ‘‹ I\x27m Awais\x27s AI assistant. Quick question - what brings you here today? Project ideas? Collaboration? Or just curious about what I can do? ðŸ˜Š"

/-- Suggestion set installed by `handleHumanSwitch`. -/
def humanSuggestions : List String :=
  ["Got a project idea", "Want to collaborate?", "Back to Assistant Bot"]

/-- Suggestion set installed by `handleAISwitch` (the assistant persona
set of this snapshot). -/
def assistantSuggestions : List String :=
  ["Tell me about Awais", "What\x27s his expertise?", "Need project help?"]

/-- Scripted reply for the `Got a project idea` suggestion. -/
def projectIdeaReply : String :=
  "That\x27s awesome! ðŸš€ I\x27d love to hear more about it. Drop the details to <a href=\x27mailto:muhammadawaislaal@gmail.com\x27>muhammadawaislaal@gmail.com</a> or reach out on <a href=\x27https://www.fiverr.com/pooorman?public_mode=true\x27 target=\x27_blank\x27>Fiverr</a> - Awais will get back to you quickly!"

/-- Scripted reply for the `Want to collaborate?` suggestion. -/
def collaborateReply : String :=
  "Love the energy! âœ¨ Collaboration is what Awais thrives on. Let\x27s connect on <a href=\x27https://linkedin.com/in/muhammad-awais-laal-2a3450324/\x27 target=\x27_blank\x27>LinkedIn</a> or <a href=\x27https://www.fiverr.com/pooorman?public_mode=true\x27 target=\x27_blank\x27>Fiverr</a> to discuss possibilities."

/-- Canned reply of the suggestion handler in human mode. -/
def humanSuggestionReply : String :=
  "Thanks for the message! Awais is usually swamped with projects, but he reads everything. For quick responses, email is your best bet - <a href=\x27mailto:muhammadawaislaal@gmail.com\x27>muhammadawaislaal@gmail.com</a> ðŸ’ª"

/-- Canned reply of the submit handler in human mode. -/
def humanModeReply : String :=
  "Thanks for reaching out! I\x27ve received your message. I\x27ll get back to you personally as soon as possible. In the meantime, feel free to email me at <strong>muhammadawaislaal@gmail.com</strong>."

/-- Widget state of the second snapshot's `initChatbot`. -/
structure WState where
  isHumanMode : Bool
  botName : String
  chat : ChatState
  chatRendered : List Msg
  suggestions : List String
  apiCalls : Nat
deriving DecidableEq

/-- `handleHumanSwitch()`: set human mode, swap avatar/name, clear the
message list, clear `conversationHistory`, reset `messageCount`, emit the
scripted greeting (after its timer) and install the human suggestion set.
`callGroqAPI` is not invoked. -/
def handleHumanSwitch (st : WState) : WState :=
  { isHumanMode := true
    botName := "Muhammad Awais Laal"
    chat := ⟨[], 0⟩
    chatRendered := [Msg.bot humanGreeting]
    suggestions := humanSuggestions
    apiCalls := st.apiCalls }

/-- `handleAISwitch()`: the symmetric transition back to the assistant
persona. -/
def handleAISwitch (st : WState) : WState :=
  { isHumanMode := false
    botName := "Awais Assistant"
    chat := ⟨[], 0⟩
    chatRendered := [Msg.bot aiGreeting]
    suggestions := assistantSuggestions
    apiCalls := st.apiCalls }

/-- One suggestion click of the second snapshot's `initSuggestions`:
render the label as a user message, then dispatch on the reserved control
labels (which run the switch handlers), the scripted labels, or fall
through to the canned human reply / a `callGroqAPI` call. -/
def selectSuggestion (tr : TransportResult) (st : WState) (label : String) : WState :=
  let st1 := { st with chatRendered := st.chatRendered ++ [Msg.user label] }
  if label = "Switch to Human" then handleHumanSwitch st1
  else if label = "Back to Assistant Bot" then handleAISwitch st1
  else if label = "Got a project idea" then
    { st1 with chatRendered := st1.chatRendered ++ [Msg.bot projectIdeaReply] }
  else if label = "Want to collaborate?" then
    { st1 with chatRendered := st1.chatRendered ++ [Msg.bot collaborateReply] }
  else if label = "View My CV" then st1
  else if st1.isHumanMode then
    { st1 with chatRendered := st1.chatRendered ++ [Msg.bot humanSuggestionReply] }
  else
    let res := callGroqAPI tr st1.chat label
    { st1 with
      chat := res.state
      chatRendered := st1.chatRendered ++ [Msg.bot res.response]
      apiCalls := st1.apiCalls + res.requests.length }

/-- One form submit of the second snapshot: render the user text, then
either the canned human-mode reply or the `callGroqAPI` response. -/
def submitMessage (tr : TransportResult) (st : WState) (text : String) : WState :=
  let st1 := { st with chatRendered := st.chatRendered ++ [Msg.user text] }
  if st1.isHumanMode then
    { st1 with chatRendered := st1.chatRendered ++ [Msg.bot humanModeReply] }
  else
    let res := callGroqAPI tr st1.chat text
    { st1 with
      chat := res.state
      chatRendered := st1.chatRendered ++ [Msg.bot res.response]
      apiCalls := st1.apiCalls + res.requests.length }

/-- `n` consecutive successful `callGroqAPI` calls from a fresh state. -/
def successRun : Nat → ChatState
  | 0 => ⟨[], 0⟩
  | n + 1 => (callGroqAPI (.httpOk "ok") (successRun n) "q").state

end DocB

namespace DocC

/-- The regex scan `text.match(/GROQ_API_KEY=(.+)/)` of the third
snapshot's `loadAPIKey`: first line with an occurrence of
`GROQ_API_KEY=` followed by at least one character; the capture is the
rest of that line. -/
def matchGroqKey (text : String) : Option String :=
  (splitChar '\n' text).findSome? fun line =>
    match findSub "GROQ_API_KEY=".data line.data with
    | some rem => if rem = [] then none else some (String.mk rem)
    | none => none

/-- `loadAPIKey()` of the third snapshot ("secure configuration"): the
localStorage override is checked first; with no override, a local or
development host reads the same-origin env.txt resource, any other host
reads the raw GitHub copy of env.txt; every fetch or parse failure ends
in `null`. -/
def loadAPIKey (stored : Option String) (hostname : String)
    (localEnv ghEnv : Option String) : Option String :=
  if truthy stored then stored
  else if hostname = "localhost" ∨ hostname = "127.0.0.1" then
    match localEnv with
    | some text => (matchGroqKey text).map jsTrim
    | none => none
  else
    match ghEnv with
    | some text => (matchGroqKey text).map jsTrim
    | none => none

end DocC

namespace Part000

/-- Fallback returned when `GROQ_API_KEY` is falsy. -/
def noCredentialFallback : String :=
  "I appreciate your interest! For real-time AI responses, please contact Awais directly at muhammadawaislaal@gmail.com or visit Fiverr. Your message is important! ðŸ’™"

/-- Reply returned when `response.ok` is false (no throw here). -/
def httpErrFallback : String :=
  "Oops! Connection issue. Reach out to Awais directly at muhammadawaislaal@gmail.com or Fiverr ðŸ˜Š"

/-- Reply returned by the catch handler. -/
def catchFallback : String :=
  "Having trouble connecting ðŸ˜… Try emailing Awais at muhammadawaislaal@gmail.com!"

/-- The part_000 `systemPrompt` template literal. -/
def systemPrompt : String :=
  "You are Awais\x27s friendly AI assistant. About Muhammad Awais Laal:\n- Python & Generative AI Developer | 5+ successful projects\n- Super Python Trainer at Preply | Skills: Python, Flask, LangChain, NLP, Transformers, TensorFlow\n- Projects: YouTube Summarizers, AI SQL Agents, Trading Predictors, BI Chatbots\n- Education: Bachelor\x27s IT | Tecrix GenAI (9mo) | Akhuwat Bootcamp\n- Contact: muhammadawaislaal@gmail.com | +92 334-6902424"

/-- `callGroqAPI(userMessage)` of part_000: key check, user push and
counter increment, full history in the request, and on success a
`slice(-12)` trim — note this snapshot never pushes the assistant turn
into `conversationHistory`. -/
def callGroqAPI (key : Option String) (tr : TransportResult) (st : ChatState)
    (userMessage : String) : CallResult :=
  if truthy key = false then
    ⟨st, noCredentialFallback, []⟩
  else
    let h1 := st.history ++ [⟨"user", userMessage⟩]
    let count := st.messageCount + 1
    let req : Request := ⟨"system", systemPrompt⟩ :: h1
    match tr with
    | .httpOk content =>
        let h2 := if 12 < h1.length then sliceLast 12 h1 else h1
        ⟨⟨h2, count⟩, content, [req]⟩
    | .httpErr _ => ⟨⟨h1, count⟩, httpErrFallback, [req]⟩
    | .netThrow => ⟨⟨h1, count⟩, catchFallback, [req]⟩

/-- State of part_000's submit/render flow.  Here the whole continuation
(remove the thinking indicator, call `callGroqAPI`, render the reply,
re-enable the input) lives inside one `setTimeout` callback, so the
input stays disabled until after the bot reply is rendered. -/
structure PState where
  key : Option String
  chat : ChatState
  rendered : List Msg
  inputDisabled : Bool
  pending : List (String × TransportResult)
deriving DecidableEq

/-- Events of the part_000 submit flow: a form submit (recording the
transport outcome the deferred completion call will see) or the firing
of the earliest pending timer callback. -/
inductive PAct where
  | submit (text : String) (tr : TransportResult)
  | fire
deriving DecidableEq

/-- One step of part_000's submit flow.  A submit needs the input to be
enabled; the handler renders the user turn, disables the input and
schedules the whole response continuation.  `fire` runs that callback:
it performs the completion call, renders the bot reply and re-enables the
input. -/
def pstep (st : PState) : PAct → Option PState
  | .submit text tr =>
      if st.inputDisabled then none
      else some { st with
        rendered := st.rendered ++ [Msg.user text]
        inputDisabled := true
        pending := st.pending ++ [(text, tr)] }
  | .fire =>
      match st.pending with
      | [] => none
      | (text, tr) :: rest =>
          let res := callGroqAPI st.key tr st.chat text
          some { st with
            chat := res.state
            rendered := st.rendered ++ [Msg.bot res.response]
            inputDisabled := false
            pending := rest }

/-- Run a list of events from a state, failing when one is not enabled. -/
def runP : PState → List PAct → Option PState
  | st, [] => some st
  | st, a :: acts =>
      match pstep st a with
      | none => none
      | some st' => runP st' acts

/-- Fresh widget state with a resolved key. -/
def initState (key : Option String) : PState := ⟨key, ⟨[], 0⟩, [], false, []⟩

/-- The rendering of a list of completed exchanges: each user turn
immediately followed by the bot reply produced for it. -/
def flatPairs : List (String × String) → List Msg
  | [] => []
  | (t, r) :: rest => Msg.user t :: Msg.bot r :: flatPairs rest

/-- Render order matches append order: either every exchange is complete
and the message list is a sequence of user/bot pairs with the input
enabled, or exactly one exchange is in flight, the message list ends
with its user turn, and the input is disabled. -/
def RenderInv (st : PState) : Prop :=
  (st.pending = [] ∧ st.inputDisabled = false ∧ ∃ ps, st.rendered = flatPairs ps)
  ∨ (∃ t tr, st.pending = [(t, tr)] ∧ st.inputDisabled = true ∧
      ∃ ps, st.rendered = flatPairs ps ++ [Msg.user t])

end Part000

/-! Helper lemmas. -/

theorem sliceLast_length_le (n : Nat) (l : List α) : (sliceLast n l).length ≤ n := by
  unfold sliceLast
  rw [List.length_drop]
  omega

theorem sliceLast_suffix (n : Nat) (l : List α) : sliceLast n l <:+ l :=
  List.drop_suffix _ l

theorem mem_sliceLast_snoc2 (l : List α) (a b : α) : a ∈ sliceLast 6 (l ++ [a, b]) := by
  unfold sliceLast
  have hlen : (l ++ [a, b]).length = l.length + 2 := by simp
  have hle : (l ++ [a, b]).length - 6 ≤ l.length := by omega
  rw [List.drop_append_of_le_length hle]
  exact List.mem_append_right _ (List.mem_cons_self a [b])

end Portfolio

namespace Portfolio

/-! Claim theorems. -/

/-- C1 (counterexample): the history bound does not hold after every
`callGroqAPI` call — eleven consecutive calls that fail on the network
leave `conversationHistory` with 11 turns, exceeding the bound 10 of the
first snapshot, because the `slice(-10)` trim only runs on the success
path. -/
theorem c1_length_bound_counterexample :
    (DocA.failRun 11).history.length = 11
    ∧ ¬ ((DocA.failRun 11).history.length ≤ 10) := by
  constructor <;> decide

/-- C1 (amended): after any successful `callGroqAPI` call of the first
snapshot the history has at most 10 turns and is a suffix — i.e. exactly
the most recent turns, oldest evicted first — of the previous history
followed by the new user and assistant turns; a failed call instead
appends the user turn without trimming. -/
theorem c1_history_bound_on_success (key : Option String) (content : String)
    (st : ChatState) (msg : String) (hk : truthy key = true) :
    (DocA.callGroqAPI key (.httpOk content) st msg).state.history.length ≤ 10
    ∧ (DocA.callGroqAPI key (.httpOk content) st msg).state.history
        <:+ st.history ++ [⟨"user", msg⟩, ⟨"assistant", content⟩] := by
  have hred : DocA.callGroqAPI key (.httpOk content) st msg
      = ⟨⟨if 10 < (st.history ++ [(⟨"user", msg⟩ : Turn), ⟨"assistant", content⟩]).length
            then sliceLast 10 (st.history ++ [(⟨"user", msg⟩ : Turn), ⟨"assistant", content⟩])
            else st.history ++ [(⟨"user", msg⟩ : Turn), ⟨"assistant", content⟩],
          st.messageCount + 1⟩, content,
          [(⟨"system", DocA.systemPrompt⟩ : Turn) :: sliceLast 6 (st.history ++ [(⟨"user", msg⟩ : Turn)])]⟩ := by
    unfold DocA.callGroqAPI
    rw [hk]
    simp
  rw [hred]
  by_cases h10 : 10 < (st.history ++ [(⟨"user", msg⟩ : Turn), ⟨"assistant", content⟩]).length
  · simp only [if_pos h10]
    exact ⟨sliceLast_length_le _ _, sliceLast_suffix _ _⟩
  · simp only [if_neg h10]
    exact ⟨Nat.le_of_not_lt h10, List.suffix_refl _⟩

/-- C1 (witness). -/
theorem c1_history_bound_on_success_witness :
    (DocA.callGroqAPI (some "k") (.httpOk "c") ⟨[], 0⟩ "m").state.history.length ≤ 10
    ∧ (DocA.callGroqAPI (some "k") (.httpOk "c") ⟨[], 0⟩ "m").state.history
        <:+ [⟨"user", "m"⟩, ⟨"assistant", "c"⟩] :=
  c1_history_bound_on_success (some "k") "c" ⟨[], 0⟩ "m" (by decide)

/-- C2: when no credential is available (`GROQ_API_KEY` falsy) the first
snapshot's `callGroqAPI` returns the fixed no-credential fallback text,
issues no request to the transport, and leaves the chat state unchanged. -/
theorem c2_no_credential (key : Option String) (tr : TransportResult) (st : ChatState)
    (msg : String) (hk : truthy key = false) :
    DocA.callGroqAPI key tr st msg = ⟨st, DocA.noCredentialFallback, []⟩ := by
  unfold DocA.callGroqAPI
  rw [hk]
  simp

/-- C2 (witness). -/
theorem c2_no_credential_witness :
    DocA.callGroqAPI none .netThrow ⟨[], 0⟩ "hi" = ⟨⟨[], 0⟩, DocA.noCredentialFallback, []⟩ :=
  c2_no_credential none .netThrow ⟨[], 0⟩ "hi" (by decide)

/-- C3: when the transport fails (non-ok status such as HTTP 500, or a
thrown fetch), the first snapshot's `callGroqAPI` returns the fixed
transport-failure fallback — a total function, so no exception reaches
the caller — whose wording differs from the no-credential fallback, and
the submit handler still completes with the input control re-enabled
(its `finally` block). -/
theorem c3_transport_failure (key : Option String) (tr : TransportResult) (st : ChatState)
    (msg : String) (w : DocA.MState)
    (hk : truthy key = true) (htr : tr.isFailure = true) (hidle : w.inputDisabled = false) :
    (DocA.callGroqAPI key tr st msg).response = DocA.transportFallback
    ∧ DocA.transportFallback ≠ DocA.noCredentialFallback
    ∧ (DocA.mstep w (.submit msg tr)).isSome = true
    ∧ ∀ w', DocA.mstep w (.submit msg tr) = some w' → w'.inputDisabled = false := by
  refine ⟨?_, by decide, ?_, ?_⟩
  · unfold DocA.callGroqAPI
    rw [hk]
    cases tr with
    | httpOk content => simp [TransportResult.isFailure] at htr
    | httpErr status => simp
    | netThrow => simp
  · unfold DocA.mstep
    rw [hidle]
    simp
  · intro w' h
    unfold DocA.mstep at h
    rw [hidle] at h
    simp only [Bool.false_eq_true, if_false, Option.some.injEq] at h
    subst h
    rfl

/-- C3 (witness). -/
theorem c3_transport_failure_witness :
    (DocA.callGroqAPI (some "k") (.httpErr 500) ⟨[], 0⟩ "hi").response = DocA.transportFallback
    ∧ DocA.transportFallback ≠ DocA.noCredentialFallback
    ∧ (DocA.mstep (DocA.initState (some "k")) (.submit "hi" (.httpErr 500))).isSome = true
    ∧ ∀ w', DocA.mstep (DocA.initState (some "k")) (.submit "hi" (.httpErr 500)) = some w'
        → w'.inputDisabled = false :=
  c3_transport_failure (some "k") (.httpErr 500) ⟨[], 0⟩ "hi" (DocA.initState (some "k"))
    (by decide) (by decide) (by decide)

/-- C10: a failed completion request is not rolled back — the user turn
pushed at the start of `callGroqAPI` stays in `conversationHistory`, the
turn counter stays incremented, the fallback text is returned without an
assistant turn being appended, and the next request's messages payload
still contains the failed exchange's user turn. -/
theorem c10_failed_turn_retained (key : Option String) (tr tr2 : TransportResult)
    (st : ChatState) (msg msg2 : String)
    (hk : truthy key = true) (htr : tr.isFailure = true) :
    (DocA.callGroqAPI key tr st msg).state.history = st.history ++ [⟨"user", msg⟩]
    ∧ (DocA.callGroqAPI key tr st msg).state.messageCount = st.messageCount + 1
    ∧ (DocA.callGroqAPI key tr st msg).response = DocA.transportFallback
    ∧ ∀ req ∈ (DocA.callGroqAPI key tr2 (DocA.callGroqAPI key tr st msg).state msg2).requests,
        (⟨"user", msg⟩ : Turn) ∈ req := by
  have hfail : DocA.callGroqAPI key tr st msg
      = ⟨⟨st.history ++ [⟨"user", msg⟩], st.messageCount + 1⟩, DocA.transportFallback,
          [⟨"system", DocA.systemPrompt⟩ :: sliceLast 6 (st.history ++ [⟨"user", msg⟩])]⟩ := by
    unfold DocA.callGroqAPI
    rw [hk]
    cases tr with
    | httpOk content => simp [TransportResult.isFailure] at htr
    | httpErr status => simp
    | netThrow => simp
  rw [hfail]
  refine ⟨rfl, rfl, rfl, ?_⟩
  intro req hreq
  have hmem : (⟨"user", msg⟩ : Turn)
      ∈ sliceLast 6 ((st.history ++ [⟨"user", msg⟩]) ++ [⟨"user", msg2⟩]) := by
    have := mem_sliceLast_snoc2 st.history (⟨"user", msg⟩ : Turn) (⟨"user", msg2⟩ : Turn)
    simpa using this
  unfold DocA.callGroqAPI at hreq
  rw [hk] at hreq
  cases tr2 with
  | httpOk content =>
      simp only [Bool.true_eq_false, if_false, List.mem_singleton] at hreq
      subst hreq
      exact List.mem_cons_of_mem _ hmem
  | httpErr status =>
      simp only [Bool.true_eq_false, if_false, List.mem_singleton] at hreq
      subst hreq
      exact List.mem_cons_of_mem _ hmem
  | netThrow =>
      simp only [Bool.true_eq_false, if_false, List.mem_singleton] at hreq
      subst hreq
      exact List.mem_cons_of_mem _ hmem

/-- C10 (witness). -/
theorem c10_failed_turn_retained_witness :
    (DocA.callGroqAPI (some "k") .netThrow ⟨[], 0⟩ "lost").state.history = [⟨"user", "lost"⟩]
    ∧ (DocA.callGroqAPI (some "k") .netThrow ⟨[], 0⟩ "lost").state.messageCount = 1
    ∧ (DocA.callGroqAPI (some "k") .netThrow ⟨[], 0⟩ "lost").response = DocA.transportFallback
    ∧ ∀ req ∈ (DocA.callGroqAPI (some "k") (.httpOk "fine")
          (DocA.callGroqAPI (some "k") .netThrow ⟨[], 0⟩ "lost").state "next").requests,
        (⟨"user", "lost"⟩ : Turn) ∈ req := by
  have h := c10_failed_turn_retained (some "k") .netThrow (.httpOk "fine") ⟨[], 0⟩ "lost" "next"
    (by decide) (by decide)
  simpa using h

theorem decodeAll_of_all_some :
    ∀ ps : List String, (∀ p ∈ ps, (B64.atob p).isSome = true) →
      ApiConfig.decodeAll ps = some (ps.map fun p => (B64.atob p).getD "")
  | [], _ => rfl
  | p :: rest, h => by
      have hp : (B64.atob p).isSome = true := h p (List.mem_cons_self p rest)
      obtain ⟨d, hd⟩ := Option.isSome_iff_exists.mp hp
      have hrest := decodeAll_of_all_some rest fun q hq => h q (List.mem_cons_of_mem p hq)
      simp [ApiConfig.decodeAll, hd, hrest]

theorem decodeAll_of_failure :
    ∀ (ps : List String) (p : String), p ∈ ps → B64.atob p = none →
      ApiConfig.decodeAll ps = none
  | [], p, hmem, _ => absurd hmem (List.not_mem_nil p)
  | q :: rest, p, hmem, hnone => by
      rcases List.mem_cons.mp hmem with heq | hmem'
      · subst heq
        simp [ApiConfig.decodeAll, hnone]
      · unfold ApiConfig.decodeAll
        cases hq : B64.atob q with
        | none => rfl
        | some d => simp [decodeAll_of_failure rest p hmem' hnone]

/-- C9: `ApiConfig.getKey` returns exactly the concatenation, in the
fixed fragment order, of the independently base64-decoded fragments; it
returns `null` whenever any fragment fails to decode (the decode error is
caught, never rethrown — in the embedding `getKey` is a total function
into `Option`); and on the actual `_p1` … `_p12` fragments it yields the
reconstructed key. -/
theorem c9_getKey_reconstruction :
    (∀ ps : List String, (∀ p ∈ ps, (B64.atob p).isSome = true) →
        ApiConfig.getKey ps = some (String.join (ps.map fun p => (B64.atob p).getD "")))
    ∧ (∀ (ps : List String) (p : String), p ∈ ps → B64.atob p = none →
        ApiConfig.getKey ps = none)
    ∧ ApiConfig.getKey ApiConfig.parts
        = some "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" := by
  refine ⟨?_, ?_, by decide⟩
  · intro ps h
    unfold ApiConfig.getKey
    rw [decodeAll_of_all_some ps h]
    rfl
  · intro ps p hmem hnone
    unfold ApiConfig.getKey
    rw [decodeAll_of_failure ps p hmem hnone]
    rfl

/-- C9 (witness). -/
theorem c9_getKey_reconstruction_witness :
    ApiConfig.getKey ["Z3NrXw==", "OQ=="]
      = some (String.join (["Z3NrXw==", "OQ=="].map fun p => (B64.atob p).getD ""))
    ∧ ApiConfig.getKey ["Z3NrXw==", "!"] = none :=
  ⟨c9_getKey_reconstruction.1 ["Z3NrXw==", "OQ=="] (by decide),
   c9_getKey_reconstruction.2.1 ["Z3NrXw==", "!"] "!" (by decide) (by decide)⟩

/-- C5 (counterexample): the first snapshot's `loadAPIKey` consults the
env.txt resource before the localStorage override, so when both would
succeed the env.txt value — not the Preference Store override — is
returned, contradicting the claimed resolution order. -/
theorem c5_resolution_order_counterexample :
    DocA.loadAPIKey (some "GROQ_API_KEY=ENVKEY") (some "STOREKEY") = some "ENVKEY"
    ∧ DocA.loadAPIKey (some "GROQ_API_KEY=ENVKEY") (some "STOREKEY") ≠ some "STOREKEY" := by
  constructor <;> decide

/-- C5 (amended): no single resolver implements the claimed three-step
chain.  The third snapshot's `loadAPIKey` checks the localStorage
override first and, only without one, reads the env.txt resource on a
local host (or the raw GitHub copy elsewhere); `ApiConfig.init` checks
the localStorage override first and otherwise uses the embedded
obfuscated default; the first snapshot's `loadAPIKey` instead lets a
successful env.txt parse win over the override. -/
theorem c5_resolution_order_amended (stored st2 : Option String) (hostname : String)
    (ghEnv : Option String) (ps : List String) (text v : String)
    (hs : truthy stored = true) (hn : truthy st2 = false) :
    DocC.loadAPIKey stored hostname (some text) ghEnv = stored
    ∧ ApiConfig.init stored ps = stored
    ∧ (DocA.envParse text = some v → DocA.loadAPIKey (some text) stored = some v)
    ∧ DocC.loadAPIKey st2 "localhost" (some text) ghEnv = (DocC.matchGroqKey text).map jsTrim
    ∧ ApiConfig.init st2 ps = ApiConfig.getKey ps := by
  refine ⟨?_, ?_, ?_, ?_, ?_⟩
  · unfold DocC.loadAPIKey
    rw [hs]
    simp
  · unfold ApiConfig.init
    rw [hs]
    simp
  · intro hparse
    unfold DocA.loadAPIKey
    simp only [hparse]
  · unfold DocC.loadAPIKey
    rw [hn]
    simp
  · unfold ApiConfig.init
    rw [hn]
    simp

/-- C5 (witness). -/
theorem c5_resolution_order_amended_witness :
    DocC.loadAPIKey (some "OVRKEY") "example.org" (some "GROQ_API_KEY=abc") none = some "OVRKEY"
    ∧ ApiConfig.init (some "OVRKEY") ApiConfig.parts = some "OVRKEY"
    ∧ (DocA.envParse "GROQ_API_KEY=abc" = some "abc" →
        DocA.loadAPIKey (some "GROQ_API_KEY=abc") (some "OVRKEY") = some "abc")
    ∧ DocC.loadAPIKey none "localhost" (some "GROQ_API_KEY=abc") none
        = (DocC.matchGroqKey "GROQ_API_KEY=abc").map jsTrim
    ∧ ApiConfig.init none ApiConfig.parts = ApiConfig.getKey ApiConfig.parts :=
  c5_resolution_order_amended (some "OVRKEY") none "example.org" none ApiConfig.parts
    "GROQ_API_KEY=abc" "abc" (by decide) (by decide)

set_option maxRecDepth 8000 in
/-- C6 (counterexample): the second snapshot sends the full, untrimmed
history.  After six successful exchanges the stored history holds 12
turns (the configured bound of that snapshot); the next request then
carries 14 messages — the system preamble, the 12 old turns and the new
user turn — exceeding preamble-plus-bound, and the history is trimmed
back to 12 only after the response arrives. -/
theorem c6_trim_before_send_counterexample :
    (DocB.successRun 6).history.length = 12
    ∧ (DocB.callGroqAPI (.httpOk "ok") (DocB.successRun 6) "q").requests.map List.length = [14]
    ∧ (DocB.callGroqAPI (.httpOk "ok") (DocB.successRun 6) "q").state.history.length = 12 := by
  refine ⟨by decide, by decide, by decide⟩

/-- C6 (amended): in the first snapshot the claim holds — every issued
request consists of the persona preamble as leading system turn followed
by `slice(-6)` of the history including the new user turn: at most 6
turns, and exactly a suffix (the most recent turns) of the appended
history, trimmed when the request is built; in the second snapshot the
full history is sent and trimming happens only after success. -/
theorem c6_trim_before_send_amended (key : Option String) (tr : TransportResult)
    (st : ChatState) (msg : String) (hk : truthy key = true) :
    (DocA.callGroqAPI key tr st msg).requests
      = [(⟨"system", DocA.systemPrompt⟩ : Turn) :: sliceLast 6 (st.history ++ [⟨"user", msg⟩])]
    ∧ (sliceLast 6 (st.history ++ [(⟨"user", msg⟩ : Turn)])).length ≤ 6
    ∧ sliceLast 6 (st.history ++ [(⟨"user", msg⟩ : Turn)])
        <:+ st.history ++ [⟨"user", msg⟩] := by
  refine ⟨?_, sliceLast_length_le _ _, sliceLast_suffix _ _⟩
  unfold DocA.callGroqAPI
  rw [hk]
  cases tr with
  | httpOk content => simp
  | httpErr status => simp
  | netThrow => simp

/-- C6 (witness). -/
theorem c6_trim_before_send_amended_witness :
    (DocA.callGroqAPI (some "k") (.httpOk "c") ⟨[], 0⟩ "m").requests
      = [(⟨"system", DocA.systemPrompt⟩ : Turn) :: sliceLast 6 [⟨"user", "m"⟩]]
    ∧ (sliceLast 6 ([] ++ [(⟨"user", "m"⟩ : Turn)])).length ≤ 6
    ∧ sliceLast 6 ([] ++ [(⟨"user", "m"⟩ : Turn)]) <:+ [] ++ [⟨"user", "m"⟩] := by
  have h := c6_trim_before_send_amended (some "k") (.httpOk "c") ⟨[], 0⟩ "m" (by decide)
  simpa using h

set_option maxRecDepth 8000 in
/-- C7 (counterexample): the contact postscript is appended again on
later turns.  After four successful exchanges the counter is 4; the
fifth successful response carries the postscript, and so does the sixth
— refuting "not duplicated on subsequent turns". -/
theorem c7_postscript_counterexample :
    (DocB.callGroqAPI (.httpOk "Hello!") (DocB.successRun 4) "q5").response
      = "Hello!" ++ DocB.postscript
    ∧ (DocB.callGroqAPI (.httpOk "Sure!")
          (DocB.callGroqAPI (.httpOk "Hello!") (DocB.successRun 4) "q5").state "q6").response
      = "Sure!" ++ DocB.postscript := by
  constructor <;> decide

/-- C7 (amended): in the second snapshot, once the incremented counter
reaches 5, every successful response has the scripted postscript
appended exactly once per response (per-turn re-arming, not
once-per-session); below the threshold the response is the bare
completion; and in human-proxy mode the submit handler answers with the
canned reply without invoking `callGroqAPI`, so the postscript is never
appended there. -/
theorem c7_postscript_amended (st st2 : ChatState) (msg msg2 content content2 : String)
    (tr : TransportResult) (w : DocB.WState)
    (h5 : 5 ≤ st.messageCount + 1) (hlt : st2.messageCount + 1 < 5)
    (hw : w.isHumanMode = true) :
    (DocB.callGroqAPI (.httpOk content) st msg).response = content ++ DocB.postscript
    ∧ (DocB.callGroqAPI (.httpOk content2) st2 msg2).response = content2
    ∧ (DocB.submitMessage tr w msg).apiCalls = w.apiCalls
    ∧ (DocB.submitMessage tr w msg).chatRendered
        = w.chatRendered ++ [Msg.user msg, Msg.bot DocB.humanModeReply] := by
  refine ⟨?_, ?_, ?_, ?_⟩
  · unfold DocB.callGroqAPI
    simp
    intro hcontra
    exact absurd h5 (by omega)
  · unfold DocB.callGroqAPI
    simp
    intro hcontra
    exact absurd hlt (by omega)
  · unfold DocB.submitMessage
    simp [hw]
  · unfold DocB.submitMessage
    simp [hw]

/-- C7 (witness). -/
theorem c7_postscript_amended_witness :
    (DocB.callGroqAPI (.httpOk "A") ⟨[], 4⟩ "q").response = "A" ++ DocB.postscript
    ∧ (DocB.callGroqAPI (.httpOk "B") ⟨[], 0⟩ "q").response = "B"
    ∧ (DocB.submitMessage .netThrow ⟨true, "Muhammad Awais Laal", ⟨[], 0⟩, [], [], 0⟩ "q").apiCalls = 0
    ∧ (DocB.submitMessage .netThrow ⟨true, "Muhammad Awais Laal", ⟨[], 0⟩, [], [], 0⟩ "q").chatRendered
        = [] ++ [Msg.user "q", Msg.bot DocB.humanModeReply] := by
  have h := c7_postscript_amended ⟨[], 4⟩ ⟨[], 0⟩ "q" "q" "A" "B" .netThrow
    ⟨true, "Muhammad Awais Laal", ⟨[], 0⟩, [], [], 0⟩ (by decide) (by decide) (by decide)
  simpa using h

/-- C4 (counterexample): in the first snapshot, selecting the reserved
`Switch to Human` label flips the persona mode but does not clear
`conversationHistory` and does not reset `messageCount` — starting from
one completed exchange and counter 1, both survive the switch. -/
theorem c4_persona_switch_counterexample :
    (DocA.selectSuggestion (some "k") .netThrow
        ⟨false, "Awais Assistant", ⟨[⟨"user", "hi"⟩, ⟨"assistant", "yo"⟩], 1⟩, [],
          DocA.assistantSuggestions, 0⟩ "Switch to Human").isHumanMode = true
    ∧ (DocA.selectSuggestion (some "k") .netThrow
        ⟨false, "Awais Assistant", ⟨[⟨"user", "hi"⟩, ⟨"assistant", "yo"⟩], 1⟩, [],
          DocA.assistantSuggestions, 0⟩ "Switch to Human").chat.history
        = [⟨"user", "hi"⟩, ⟨"assistant", "yo"⟩]
    ∧ (DocA.selectSuggestion (some "k") .netThrow
        ⟨false, "Awais Assistant", ⟨[⟨"user", "hi"⟩, ⟨"assistant", "yo"⟩], 1⟩, [],
          DocA.assistantSuggestions, 0⟩ "Switch to Human").chat.messageCount = 1 := by
  refine ⟨by decide, by decide, by decide⟩

/-- C4 (amended): the reserved control labels always perform an
immediate persona transition with a scripted greeting and swapped
suggestion set, without invoking the completion client; in the second
snapshot (`handleHumanSwitch` / `handleAISwitch`) the transition also
clears the history and resets the counter, so switching to human-proxy
and straight back restores that snapshot's assistant suggestion set with
an empty history and counter 0; in the first snapshot the history and
counter persist across the switch. -/
theorem c4_persona_switch_amended (tr1 tr2 tr3 tr4 tr5 : TransportResult) (st wb : DocB.WState)
    (key : Option String) (sa sb : DocA.SugState) :
    (DocB.selectSuggestion tr1 st "Switch to Human")
      = ⟨true, "Muhammad Awais Laal", ⟨[], 0⟩, [Msg.bot DocB.humanGreeting],
          DocB.humanSuggestions, st.apiCalls⟩
    ∧ (DocB.selectSuggestion tr2 (DocB.selectSuggestion tr1 st "Switch to Human")
          "Back to Assistant Bot")
      = ⟨false, "Awais Assistant", ⟨[], 0⟩, [Msg.bot DocB.aiGreeting],
          DocB.assistantSuggestions, st.apiCalls⟩
    ∧ (DocB.selectSuggestion tr5 wb "Back to Assistant Bot")
      = ⟨false, "Awais Assistant", ⟨[], 0⟩, [Msg.bot DocB.aiGreeting],
          DocB.assistantSuggestions, wb.apiCalls⟩
    ∧ (DocA.selectSuggestion key tr3 sa "Switch to Human").isHumanMode = true
    ∧ (DocA.selectSuggestion key tr3 sa "Switch to Human").chat = sa.chat
    ∧ (DocA.selectSuggestion key tr3 sa "Switch to Human").suggestions = DocA.humanSuggestions
    ∧ (DocA.selectSuggestion key tr3 sa "Switch to Human").apiCalls = sa.apiCalls
    ∧ (DocA.selectSuggestion key tr3 sa "Switch to Human").rendered
        = sa.rendered ++ [Msg.user "Switch to Human", Msg.bot DocA.humanSwitchReply]
    ∧ (DocA.selectSuggestion key tr4 sb "Back to Assistant Bot").isHumanMode = false
    ∧ (DocA.selectSuggestion key tr4 sb "Back to Assistant Bot").chat = sb.chat
    ∧ (DocA.selectSuggestion key tr4 sb "Back to Assistant Bot").suggestions
        = DocA.assistantSuggestions
    ∧ (DocA.selectSuggestion key tr4 sb "Back to Assistant Bot").apiCalls = sb.apiCalls
    ∧ (DocA.selectSuggestion key tr4 sb "Back to Assistant Bot").rendered
        = sb.rendered ++ [Msg.user "Back to Assistant Bot", Msg.bot DocA.aiSwitchReply] := by
  refine ⟨?_, ?_, ?_, ?_, ?_, ?_, ?_, ?_, ?_, ?_, ?_, ?_, ?_⟩
  · simp [DocB.selectSuggestion, DocB.handleHumanSwitch]
  · simp [DocB.selectSuggestion, DocB.handleHumanSwitch, DocB.handleAISwitch]
  · simp [DocB.selectSuggestion, DocB.handleAISwitch]
  · simp [DocA.selectSuggestion]
  · simp [DocA.selectSuggestion]
  · simp [DocA.selectSuggestion]
  · simp [DocA.selectSuggestion]
  · simp [DocA.selectSuggestion]
  · simp [DocA.selectSuggestion]
  · simp [DocA.selectSuggestion]
  · simp [DocA.selectSuggestion]
  · simp [DocA.selectSuggestion]
  · simp [DocA.selectSuggestion]

set_option maxRecDepth 8000 in
/-- C8 (counterexample): in the first snapshot's submit flow the
`finally` block re-enables the input before the 800ms render timer
fires, so a second submit slipped into that window is rendered before
the previous assistant reply: after `submit A, submit B, fire, fire`
the rendered order is user A, user B, bot ra, …, while the append order
of the history is user A, assistant ra, user B, assistant rb.  The
second clause shows the input already re-enabled while the first bot
render is still pending. -/
theorem c8_render_order_counterexample :
    DocA.runA (DocA.initState (some "k"))
      [.submit "A" (.httpOk "ra"), .submit "B" (.httpOk "rb"), .fire, .fire]
    = some ⟨some "k", ⟨[⟨"user", "A"⟩, ⟨"assistant", "ra"⟩, ⟨"user", "B"⟩, ⟨"assistant", "rb"⟩], 4⟩,
        false,
        [Msg.user "A", Msg.user "B", Msg.bot "ra", Msg.bot DocA.contactHtml,
         Msg.bot "rb", Msg.bot DocA.contactHtml],
        false, []⟩
    ∧ (DocA.runA (DocA.initState (some "k")) [.submit "A" (.httpOk "ra")]).map
        (fun w => (w.inputDisabled, w.pendingBots)) = some (false, ["ra"]) := by
  constructor <;> decide

theorem flatPairs_append_one (ps : List (String × String)) (t r : String) :
    Part000.flatPairs (ps ++ [(t, r)]) = Part000.flatPairs ps ++ [Msg.user t, Msg.bot r] := by
  induction ps with
  | nil => rfl
  | cons q rest ih =>
      cases q
      simp [Part000.flatPairs, ih]

theorem pstep_renderInv (st st' : Part000.PState) (a : Part000.PAct)
    (hinv : Part000.RenderInv st) (h : Part000.pstep st a = some st') :
    Part000.RenderInv st' := by
  cases a with
  | submit text tr =>
      rcases hinv with ⟨hp, hd, ps, hr⟩ | ⟨t, tr0, hp, hd, _ps, _hr⟩
      · unfold Part000.pstep at h
        rw [hd] at h
        simp only [Bool.false_eq_true, if_false, Option.some.injEq] at h
        subst h
        right
        exact ⟨text, tr, by simp [hp], rfl, ps, by simp [hr]⟩
      · unfold Part000.pstep at h
        rw [hd] at h
        simp at h
  | fire =>
      rcases hinv with ⟨hp, hd, ps, hr⟩ | ⟨t, tr0, hp, hd, ps, hr⟩
      · unfold Part000.pstep at h
        rw [hp] at h
        simp at h
      · unfold Part000.pstep at h
        rw [hp] at h
        simp only [Option.some.injEq] at h
        subst h
        left
        refine ⟨rfl, rfl, ps ++ [(t, (Part000.callGroqAPI st.key tr0 st.chat t).response)], ?_⟩
        rw [flatPairs_append_one]
        simp [hr]

theorem runP_renderInv : ∀ (acts : List Part000.PAct) (st st' : Part000.PState),
    Part000.RenderInv st → Part000.runP st acts = some st' → Part000.RenderInv st'
  | [], st, st', hinv, h => by
      unfold Part000.runP at h
      simp only [Option.some.injEq] at h
      subst h
      exact hinv
  | a :: acts, st, st', hinv, h => by
      unfold Part000.runP at h
      cases hstep : Part000.pstep st a with
      | none => rw [hstep] at h; simp at h
      | some st1 =>
          rw [hstep] at h
          exact runP_renderInv acts st1 st' (pstep_renderInv st st1 a hinv hstep) h

/-- C8 (amended): in the part_000 submit flow the input stays disabled
until the assistant reply is rendered, so for every legal event sequence
the rendered list is a sequence of user/bot pairs — each user turn
immediately followed by the bot reply produced for it — possibly ending
with the single in-flight user turn, the input is disabled exactly while
an exchange is in flight, and at most one exchange is ever in flight. -/
theorem c8_render_order_amended (key : Option String) (acts : List Part000.PAct)
    (st : Part000.PState) (h : Part000.runP (Part000.initState key) acts = some st) :
    Part000.RenderInv st ∧ st.pending.length ≤ 1 := by
  have hinv0 : Part000.RenderInv (Part000.initState key) := Or.inl ⟨rfl, rfl, [], rfl⟩
  have hinv := runP_renderInv acts _ st hinv0 h
  refine ⟨hinv, ?_⟩
  rcases hinv with ⟨hp, _⟩ | ⟨t, tr, hp, _⟩
  · simp [hp]
  · simp [hp]

/-- C8 (witness). -/
theorem c8_render_order_amended_witness :
    Part000.RenderInv ⟨some "k", ⟨[⟨"user", "hi"⟩], 1⟩, [Msg.user "hi", Msg.bot "yo"], false, []⟩
    ∧ (Part000.PState.pending
        ⟨some "k", ⟨[⟨"user", "hi"⟩], 1⟩, [Msg.user "hi", Msg.bot "yo"], false, []⟩).length ≤ 1 :=
  c8_render_order_amended (some "k") [.submit "hi" (.httpOk "yo"), .fire]
    ⟨some "k", ⟨[⟨"user", "hi"⟩], 1⟩, [Msg.user "hi", Msg.bot "yo"], false, []⟩ (by decide)

end Portfolio

